import Mathlib

/-!
Shallow embedding of the two provisioning scripts of this repository,
`run.py` and `setup_raspberry_pi.py`.

External effects (subprocess execution, file writes, console output,
`os.chmod`, `os.makedirs`, environment mutation) are recorded as an event
trace; `sys.exit(n)` terminates the computation with exit status `n`.
Host facts that the scripts only read (exit status and combined output of
each shell command, `shutil.which` lookups, the stdout of `node --version`,
the effective uid, `statvfs` numbers, `/proc` facts, pre-existing file
contents, and the one interactive input) are fields of a `World` record
fixed for the whole run.
-/

/-- One observable side effect of a script. -/
inductive Event where
  | print (s : String)
  | exec (cmd : String)
  | write (path content : String)
  | append (path content : String)
  | mkdirs (path : String)
  | chmod (path : String) (mode : Nat)
  | setEnv (key val : String)
deriving DecidableEq

/-- Console output only (no command execution, no filesystem mutation). -/
def Event.isPrint : Event → Bool
  | .print _ => true
  | _ => false

/-- Script computations: a trace-accumulating computation that can also
terminate the whole process with an exit status (`sys.exit`). -/
def M (α : Type) : Type := List Event → Except (Nat × List Event) (α × List Event)

instance : Monad M where
  pure a := fun tr => Except.ok (a, tr)
  bind x f := fun tr =>
    match x tr with
    | Except.error e => Except.error e
    | Except.ok (a, tr2) => f a tr2

def emit (e : Event) : M Unit := fun tr => Except.ok ((), tr ++ [e])

def sysExit {α : Type} (n : Nat) : M α := fun tr => Except.error (n, tr)

/-- The event trace of a complete run (also defined when the run was cut
short by `sys.exit`). -/
def runTrace {α : Type} (m : M α) : List Event :=
  match m [] with
  | Except.ok (_, tr) => tr
  | Except.error (_, tr) => tr

/-- The process exit status of a complete run: 0 on normal completion,
otherwise the `sys.exit` argument. -/
def runExit {α : Type} (m : M α) : Nat :=
  match m [] with
  | Except.ok _ => 0
  | Except.error (n, _) => n

/-- Last `n` characters of a string: Python `s[-n:]` (whole string when
`s` is shorter than `n`). -/
def pyTail (n : Nat) (s : String) : String :=
  String.mk (s.data.drop (s.data.length - n))

def isPrefixChars : List Char → List Char → Bool
  | [], _ => true
  | _ :: _, [] => false
  | p :: ps, c :: cs => p == c && isPrefixChars ps cs

def containsSub (pat : List Char) : List Char → Bool
  | [] => pat.isEmpty
  | c :: cs => isPrefixChars pat (c :: cs) || containsSub pat cs

/-- Python substring membership `pat in s`. -/
def strContains (s pat : String) : Bool := containsSub pat.data s.data

def digitsVal (cs : List Char) : Nat :=
  List.foldl (fun acc c => acc * 10 + (c.toNat - 48)) 0 cs

/-- Python `str.strip()`: drop leading and trailing whitespace. -/
def pyStrip (s : String) : String :=
  String.mk (((s.data.dropWhile Char.isWhitespace).reverse.dropWhile Char.isWhitespace).reverse)

/-- Python `str.lower()`. -/
def pyLower (s : String) : String := String.mk (s.data.map Char.toLower)

/-- `s.replace("\x00", "")` as used on the device-tree model string:
removes every NUL character. -/
def stripNul (s : String) : String :=
  String.mk (s.data.filter (fun c => c != '\x00'))

/-- Python `int()` applied to a string: optional surrounding whitespace,
optional sign, then decimal digits; anything else raises `ValueError`
(modelled as `none`). -/
def pyInt? (s : String) : Option Int :=
  let cs := (pyStrip s).data
  match cs with
  | '-' :: rest =>
      if rest.isEmpty || !rest.all Char.isDigit then none
      else some (-(digitsVal rest : Int))
  | '+' :: rest =>
      if rest.isEmpty || !rest.all Char.isDigit then none
      else some ((digitsVal rest : Int))
  | _ =>
      if cs.isEmpty || !cs.all Char.isDigit then none
      else some ((digitsVal cs : Int))

/-- Both scripts parse the node version the same way:
`stdout.strip().lstrip("v").split(".")[0]` fed to `int()`. -/
def parseMajor? (stdout : String) : Option Int :=
  pyInt? (String.mk ((((pyStrip stdout).data).dropWhile (fun c => c == 'v')).takeWhile (fun c => c != '.')))

/-- The `stdout.strip().lstrip("v")` string that setup_raspberry_pi.py
interpolates into its log messages. -/
def versionStr (stdout : String) : String :=
  String.mk (((pyStrip stdout).data).dropWhile (fun c => c == 'v'))

/-- `os.path.join` for the simple relative components used here. -/
def pjoin (a b : String) : String := a ++ "/" ++ b

/-- A run of `n` copies of one character (used for the box-drawing rules
of the console banners). -/
def repChar (n : Nat) (c : Char) : String := String.mk (List.replicate n c)

/-- Host facts read (never written) by the scripts during one run. -/
structure World where
  /-- exit status of each shell command run via `subprocess.run(shell=True)` -/
  cmdExit : String → Nat
  /-- combined captured stdout+stderr of each shell command -/
  cmdOutput : String → String
  /-- `shutil.which(cmd) is not None` -/
  whichPresent : String → Bool
  /-- stdout of `node --version` (captured directly, not via `run`) -/
  nodeVersionStdout : String
  /-- `os.geteuid()` -/
  euid : Nat
  /-- `os.uname().machine` -/
  arch : String
  /-- contents of `/proc/device-tree/model`; `none` means `FileNotFoundError` -/
  piModel : Option String
  /-- the MemTotal value of `/proc/meminfo`, already divided down to MB -/
  ramMB : Nat
  /-- `os.statvfs("/").f_bavail` -/
  stBavail : Nat
  /-- `os.statvfs("/").f_frsize` -/
  stFrsize : Nat
  /-- `os.environ.get("SUDO_USER")` -/
  sudoUser : Option String
  /-- `os.path.expanduser("~" + user)` -/
  homeOf : String → String
  /-- whether the workspace `.env` file already exists -/
  envFileExists : Bool
  /-- content of the existing workspace `.env` file -/
  envFileContent : String
  /-- content of the invoking user's `.bashrc`; `none` means `FileNotFoundError` -/
  bashrcContent : Option String
  /-- what the user types at the API-key prompt -/
  userInput : String

namespace RunPy

def G : String := "\x1b[92m"

def Y : String := "\x1b[93m"

def R : String := "\x1b[91m"

def C : String := "\x1b[96m"

def B : String := "\x1b[1m"

def X : String := "\x1b[0m"

def ok (msg : String) : M Unit := emit (Event.print (G ++ B ++ "[OK]" ++ X ++ " " ++ msg))

def warn (msg : String) : M Unit := emit (Event.print (Y ++ "[!!]" ++ X ++ " " ++ msg))

def err (msg : String) : M Unit := emit (Event.print (R ++ "[XX]" ++ X ++ " " ++ msg))

def info (msg : String) : M Unit := emit (Event.print (C ++ "  -> " ++ X ++ msg))

/-- run.py `run(cmd, desc=None, check=True)`.  `subprocess.run(cmd,
shell=True, check=check)` raises `CalledProcessError` exactly when `check`
is set and the command exits non-zero; the handler prints the failure
line, then the last 600 characters of the captured output when that
output is non-empty, and then calls `sys.exit(1)` when `check` is set
(so the final `return False` is unreachable: with `check=False` no
exception is ever raised and the function returns `True`). -/
def run (w : World) (cmd : String) (desc : Option String) (check : Bool) : M Bool := do
  (match desc with
   | some d => info d
   | none => pure ())
  emit (Event.exec cmd)
  if check && w.cmdExit cmd != 0 then do
    err ("Failed: " ++ cmd)
    if w.cmdOutput cmd != "" then
      emit (Event.print (pyTail 600 (w.cmdOutput cmd)))
    if check then sysExit 1 else pure false
  else
    pure true

def has (w : World) (cmd : String) : Bool := w.whichPresent cmd

/-- run.py `node_major`: any exception (unparseable version string)
yields 0. -/
def node_major (w : World) : Int :=
  match parseMajor? w.nodeVersionStdout with
  | some n => n
  | none => 0

def real_user (w : World) : String := w.sudoUser.getD "pi"

def real_home (w : World) : String := w.homeOf (real_user w)

/-- `free_gb` as computed in `preflight`: `(st.f_bavail * st.f_frsize) // 1024**3`. -/
def free_gb (w : World) : Nat := (w.stBavail * w.stFrsize) / (1024 ^ 3)

def preflight (w : World) : M Unit := do
  emit (Event.print ("\n" ++ B ++ "Pre-flight checks" ++ X))
  emit (Event.print (String.mk (List.replicate 45 '-')))
  if w.euid != 0 then do
    err "Must be run as root.  Use:  sudo python3 run.py setup"
    sysExit 1
  ok "Running as root"
  let arch := w.arch
  if arch == "aarch64" then
    ok ("Arch: " ++ arch ++ " (64-bit)")
  else if arch == "armv7l" then
    warn ("Arch: " ++ arch ++ " (32-bit) — 64-bit Pi OS recommended")
  else
    ok ("Arch: " ++ arch)
  (match w.piModel with
   | some raw => ok ("Device: " ++ stripNul (pyStrip raw))
   | none => warn "Could not detect Pi model")
  let ram_mb := w.ramMB
  if ram_mb < 2048 then
    warn ("RAM: " ++ toString ram_mb ++ "MB (low — may be tight)")
  else
    ok ("RAM: " ++ toString ram_mb ++ "MB")
  if free_gb w < 4 then do
    err ("Disk: only " ++ toString (free_gb w) ++ "GB free — need at least 4GB")
    sysExit 1
  ok ("Disk: " ++ toString (free_gb w) ++ "GB free")
  let connected ← run w "ping -c1 -W3 google.com" none false
  if connected then
    ok "Internet: connected"
  else do
    err "No internet connection"
    sysExit 1
  emit (Event.print "")

def install_updates (w : World) : M Unit := do
  emit (Event.print ("\n" ++ B ++ "[1/7] System update" ++ X))
  let _ ← run w "apt-get update -y -qq" (some "apt update") true
  let _ ← run w "apt-get upgrade -y -qq" (some "apt upgrade") true
  let _ ← run w "apt-get install -y -qq curl wget git ca-certificates gnupg lsb-release"
      (some "Installing essentials") true
  ok "System up to date"

def install_docker (w : World) : M Unit := do
  emit (Event.print ("\n" ++ B ++ "[2/7] Docker" ++ X))
  if has w "docker" then
    warn "Docker already installed"
  else do
    let _ ← run w "curl -fsSL https://get.docker.com -o /tmp/get-docker.sh"
        (some "Downloading installer") true
    let _ ← run w "sh /tmp/get-docker.sh" (some "Installing Docker") true
    pure ()
  let _ ← run w "systemctl enable docker && systemctl start docker" (some "Enabling service") true
  let _ ← run w ("usermod -aG docker " ++ real_user w)
      (some ("Adding " ++ real_user w ++ " to docker group")) true
  ok "Docker ready"

def install_compose (w : World) : M Unit := do
  emit (Event.print ("\n" ++ B ++ "[3/7] Docker Compose" ++ X))
  let b ← run w "docker compose version" none false
  if b then
    warn "Docker Compose already installed"
  else do
    let _ ← run w "apt-get install -y -qq docker-compose-plugin"
        (some "Installing compose plugin") true
    pure ()
  ok "Docker Compose ready"

def install_node (w : World) : M Unit := do
  emit (Event.print ("\n" ++ B ++ "[4/7] Node.js & npm" ++ X))
  if has w "node" ∧ node_major w ≥ 18 then
    warn ("Node v" ++ toString (node_major w) ++ " already installed")
  else do
    if has w "node" then do
      let _ ← run w "apt-get remove -y -qq nodejs" (some "Removing old node") true
      pure ()
    let _ ← run w "curl -fsSL https://deb.nodesource.com/setup_20.x | bash -"
        (some "Adding NodeSource repo") true
    let _ ← run w "apt-get install -y -qq nodejs" (some "Installing Node 20") true
    pure ()
  ok "Node & npm ready"

def install_claude_cli (w : World) : M Unit := do
  emit (Event.print ("\n" ++ B ++ "[5/7] Claude Code CLI" ++ X))
  let _ ← run w "npm install -g @anthropic-ai/claude-code --loglevel=warn"
      (some "Installing via npm") true
  ok "Claude Code CLI installed"

def install_python_sdk (w : World) : M Unit := do
  emit (Event.print ("\n" ++ B ++ "[6/7] Anthropic Python SDK" ++ X))
  let _ ← run w "apt-get install -y -qq python3-pip python3-venv" (some "Ensuring pip") true
  let u := real_user w
  let _ ← run w ("sudo -u " ++ u ++ " pip3 install --user --break-system-packages anthropic 2>/dev/null || sudo -u " ++ u ++ " pip3 install --user anthropic")
      (some "Installing SDK") false
  ok "Python SDK installed"

/-- the dedented `docker-compose.yml` content written by `scaffold` -/
def composeYml : String :=
  "version: \"3.9\"\n\nservices:\n  claude:\n    image: node:20-slim\n    container_name: claude-code\n    stdin_open: true\n    tty: true\n    restart: unless-stopped\n    working_dir: /workspace\n    environment:\n      - ANTHROPIC_API_KEY=${ANTHROPIC_API_KEY}\n    volumes:\n      - ./workspace:/workspace\n      - claude-config:/root/.claude\n      - npm-cache:/root/.npm\n    entrypoint: [\"/bin/sh\", \"-c\"]\n    command:\n      - |\n        echo \"Installing Claude Code …\"\n        npm install -g @anthropic-ai/claude-code --loglevel=warn\n        echo \"Launching …\"\n        exec claude\n\nvolumes:\n  claude-config:\n  npm-cache:\n"

/-- the dedented `start-claude.sh` content written by `scaffold` -/
def launcherSh : String :=
  "#!/usr/bin/env bash\nset -e\nDIR=\"$(cd \"$(dirname \"$0\")\" && pwd)\"\nif [ -z \"$ANTHROPIC_API_KEY\" ]; then\n  source \"$DIR/.env\" 2>/dev/null || true\n  export ANTHROPIC_API_KEY\nfi\nif [ \"$ANTHROPIC_API_KEY\" = \"your-api-key-here\" ] || [ -z \"$ANTHROPIC_API_KEY\" ]; then\n  echo \"\"; echo \"  No API key set.  Edit $DIR/.env first.\"; echo \"\"; exit 1\nfi\necho \"\"\necho \"  1) Native  (claude CLI)\"\necho \"  2) Docker  (container)\"\necho \"\"\nread -rp \"  Pick [1/2]: \" choice\ncase \"$choice\" in\n  2) cd \"$DIR\" && docker compose up ;;\n  *) cd \"$DIR/workspace\" && claude ;;\nesac\n"

def placeholder : String := "your-api-key-here"

/-- the default `.env` content -/
def envDefault : String :=
  "# Paste your Anthropic API key below\nANTHROPIC_API_KEY=your-api-key-here\n"

/-- the path of the workspace `.env` file -/
def envPath (w : World) : String :=
  pjoin (pjoin (real_home w) "claude-workspace") ".env"

def scaffold (w : World) : M String := do
  emit (Event.print ("\n" ++ B ++ "[7/7] Creating project files" ++ X))
  let base := pjoin (real_home w) "claude-workspace"
  let ws := pjoin base "workspace"
  emit (Event.mkdirs ws)
  emit (Event.write (pjoin base "docker-compose.yml") composeYml)
  let env_path := pjoin base ".env"
  if !w.envFileExists || strContains w.envFileContent placeholder then
    emit (Event.write env_path envDefault)
  let launcher := pjoin base "start-claude.sh"
  emit (Event.write launcher launcherSh)
  emit (Event.chmod launcher 0o755)
  let _ ← run w ("chown -R " ++ real_user w ++ ":" ++ real_user w ++ " " ++ base) none true
  ok ("Files created at " ++ base)
  pure base

def ask_key (w : World) (base : String) : M Unit := do
  emit (Event.print ("\n" ++ C ++ B ++ "-- API Key --" ++ X))
  emit (Event.print "  Get yours at: https://console.anthropic.com")
  emit (Event.print "\n  Paste your API key (Enter to skip): ")
  let key := pyStrip w.userInput
  if key == "" then
    warn "Skipped — edit .env later before running Claude"
  else do
    let env_path := pjoin base ".env"
    emit (Event.write env_path ("ANTHROPIC_API_KEY=" ++ key ++ "\n"))
    let bashrc := pjoin (real_home w) ".bashrc"
    let existing := (w.bashrcContent).getD ""
    if !(strContains existing "ANTHROPIC_API_KEY") then
      emit (Event.append bashrc ("\n# Anthropic API Key\nexport ANTHROPIC_API_KEY=\"" ++ key ++ "\"\n"))
    ok "API key saved to .env and ~/.bashrc"

def bannerText : String :=
  "\n" ++ C ++ B ++ "\n╔" ++ repChar 55 '═' ++ "╗\n║  Raspberry Pi  —  Claude Code  Full Auto-Installer    ║\n╚" ++ repChar 55 '═' ++ "╝" ++ X ++ "\n"

def summaryText (base : String) : String :=
  "\n" ++ G ++ B ++ "\n╔" ++ repChar 55 '═' ++ "╗\n║              SETUP COMPLETE!                          ║\n╚" ++ repChar 55 '═' ++ "╝" ++ X ++ "\n\n  " ++ B ++ "Installed:" ++ X ++ "\n    Docker, Docker Compose, Node.js, npm,\n    Claude Code CLI, Anthropic Python SDK\n\n  " ++ B ++ "Your workspace:" ++ X ++ "\n    " ++ base ++ "/\n    ├── docker-compose.yml\n    ├── .env               <- API key goes here\n    ├── start-claude.sh    <- quick launcher\n    └── workspace/         <- your project files\n\n  " ++ B ++ "To launch Claude:" ++ X ++ "\n    cd " ++ base ++ "\n    ./start-claude.sh\n\n  " ++ B ++ "Or directly:" ++ X ++ "\n    claude                  <- native\n    docker compose up       <- in Docker\n\n  " ++ Y ++ "Reboot or run \x27newgrp docker\x27 for docker permissions." ++ X ++ "\n"

def setup (w : World) : M Unit := do
  emit (Event.print bannerText)
  preflight w
  install_updates w
  install_docker w
  install_compose w
  install_node w
  install_claude_cli w
  install_python_sdk w
  let base ← scaffold w
  ask_key w base
  emit (Event.print (summaryText base))

def usageText : String :=
  "\n" ++ B ++ "Usage:" ++ X ++ "\n  sudo python3 run.py setup     Install everything\n  sudo python3 run.py help      Show this message\n"

def usage : M Unit := emit (Event.print usageText)

/-- `sys.argv[1].lower() if len(sys.argv) > 1 else ""` -/
def argCmd (argv : List String) : String :=
  match argv.get? 1 with
  | some a => pyLower a
  | none => ""

/-- the `if __name__ == "__main__"` dispatch of run.py -/
def mainEntry (w : World) (argv : List String) : M Unit :=
  if argCmd argv == "setup" then setup w else usage

end RunPy

namespace SetupPy

def GREEN : String := "\x1b[92m"

def YELLOW : String := "\x1b[93m"

def RED : String := "\x1b[91m"

def CYAN : String := "\x1b[96m"

def BOLD : String := "\x1b[1m"

def RESET : String := "\x1b[0m"

def bannerText : String :=
  "\n" ++ CYAN ++ BOLD ++ "\n ╔" ++ repChar 54 '═' ++ "╗\n ║   Raspberry Pi  –  Docker + Claude  Setup Script     ║\n ╚" ++ repChar 54 '═' ++ "╝\n" ++ RESET

def banner : M Unit := emit (Event.print bannerText)

def log_step (msg : String) : M Unit :=
  emit (Event.print ("\n" ++ BOLD ++ GREEN ++ "[✓] " ++ msg ++ RESET))

def log_warn (msg : String) : M Unit :=
  emit (Event.print (YELLOW ++ "[!] " ++ msg ++ RESET))

def log_error (msg : String) : M Unit :=
  emit (Event.print (RED ++ "[✗] " ++ msg ++ RESET))

def log_info (msg : String) : M Unit :=
  emit (Event.print (CYAN ++ "    → " ++ msg ++ RESET))

/-- setup_raspberry_pi.py `run(cmd, description="", check=True, shell=True)`.
`subprocess.run` raises `CalledProcessError` exactly when `check` is set
and the command exits non-zero; the handler prints the failure line and
the last 500 characters of the captured output and then returns `False`
without terminating the process.  On the non-raising path the function
returns `returncode == 0`. -/
def run (w : World) (cmd : String) (description : String) (check : Bool) : M Bool := do
  if description != "" then
    log_info description
  emit (Event.exec cmd)
  if check && w.cmdExit cmd != 0 then do
    log_error ("Command failed: " ++ cmd)
    if w.cmdOutput cmd != "" then
      emit (Event.print (pyTail 500 (w.cmdOutput cmd)))
    pure false
  else
    pure (w.cmdExit cmd == 0)

def check_root (w : World) : M Unit := do
  if w.euid != 0 then do
    log_error "This script must be run as root."
    emit (Event.print "  Re-run with:  sudo python3 setup_raspberry_pi.py")
    sysExit 1

def get_real_user (w : World) : String := w.sudoUser.getD "pi"

def is_installed (w : World) (cmd : String) : Bool := w.whichPresent cmd

def update_system (w : World) : M Unit := do
  log_step "STEP 1/6  –  Updating & upgrading system packages"
  let _ ← run w "apt-get update -y" "Running apt-get update …" true
  let _ ← run w "apt-get upgrade -y" "Running apt-get upgrade …" true
  let _ ← run w "apt-get install -y curl wget git ca-certificates gnupg lsb-release"
      "Installing essential utilities …" true
  pure ()

def install_docker (w : World) : M Unit := do
  log_step "STEP 2/6  –  Installing Docker"
  if is_installed w "docker" then do
    log_warn "Docker is already installed – skipping."
    let _ ← run w "docker --version" "Current Docker version:" true
    pure ()
  else do
    log_info "Downloading Docker install script …"
    let _ ← run w "curl -fsSL https://get.docker.com -o /tmp/get-docker.sh" "" true
    let _ ← run w "sh /tmp/get-docker.sh" "Running official Docker installer …" true
    -- the post-install re-check reads the same (static) PATH snapshot
    if !is_installed w "docker" then do
      log_error "Docker installation failed. Check output above."
      sysExit 1
  let user := get_real_user w
  let _ ← run w ("usermod -aG docker " ++ user)
      ("Adding \x27" ++ user ++ "\x27 to the docker group …") true
  let _ ← run w "systemctl enable docker" "Enabling Docker on boot …" true
  let _ ← run w "systemctl start docker" "Starting Docker service …" true
  log_info "Docker installed successfully."
  let _ ← run w "docker --version" "" true
  pure ()

def install_docker_compose (w : World) : M Unit := do
  log_step "STEP 3/6  –  Installing Docker Compose plugin"
  -- `is_installed("docker-compose") or run(..., check=False)`: the call is
  -- short-circuited away when the binary is on PATH
  let available ←
    if is_installed w "docker-compose" then pure true
    else run w "docker compose version" "" false
  if available then
    log_warn "Docker Compose is already available – skipping."
  else do
    let _ ← run w "apt-get install -y docker-compose-plugin"
        "Installing docker-compose-plugin …" true
    pure ()
  let _ ← run w "docker compose version" "Docker Compose version:" false
  pure ()

def install_node (w : World) : M Unit := do
  log_step "STEP 4/6  –  Installing Node.js & npm"
  -- `needs_install` starts `True`; the presence branch may clear it, and the
  -- too-old branch removes the old install; `except ValueError: pass` leaves
  -- `needs_install` set without removing anything
  let needsInstall ←
    if is_installed w "node" then do
      let version_str := versionStr w.nodeVersionStdout
      match parseMajor? w.nodeVersionStdout with
      | some major =>
        if major ≥ 18 then do
          log_warn ("Node.js v" ++ version_str ++ " already installed – skipping.")
          pure false
        else do
          log_warn ("Node.js v" ++ version_str ++ " is too old (need ≥18). Upgrading …")
          let _ ← run w "apt-get remove -y nodejs" "Removing old Node.js …" true
          pure true
      | none => pure true
    else
      pure true
  if needsInstall then do
    let _ ← run w "curl -fsSL https://deb.nodesource.com/setup_20.x | bash -"
        "Adding NodeSource repo (Node 20 LTS) …" true
    let _ ← run w "apt-get install -y nodejs" "Installing Node.js …" true
    pure ()
  let _ ← run w "node --version" "Node version:" true
  let _ ← run w "npm --version" "npm version:" true
  pure ()

def install_claude_code (w : World) : M Unit := do
  log_step "STEP 5/6  –  Installing Claude Code CLI"
  if is_installed w "claude" then do
    log_warn "Claude Code CLI already installed – updating …"
    let _ ← run w "npm update -g @anthropic-ai/claude-code" "Updating Claude Code …" true
    pure ()
  else do
    let _ ← run w "npm install -g @anthropic-ai/claude-code"
        "Installing Claude Code via npm …" true
    pure ()
  if is_installed w "claude" then
    log_info "Claude Code CLI is ready. Run \x27claude\x27 to start."
  else do
    log_warn "Claude Code CLI could not be verified on PATH."
    log_info "You may need to open a new terminal or run: hash -r"

def install_python_sdk (w : World) : M Unit := do
  log_step "STEP 6/6  –  Installing Anthropic Python SDK"
  let _ ← run w "apt-get install -y python3-pip python3-venv"
      "Ensuring pip & venv are available …" true
  let user := get_real_user w
  let _ ← run w ("sudo -u " ++ user ++ " pip3 install --user --break-system-packages anthropic 2>/dev/null || sudo -u " ++ user ++ " pip3 install --user anthropic")
      "Installing anthropic SDK for user …" false
  log_info "Anthropic Python SDK installed."

def apiKeyBanner : String :=
  "\n" ++ CYAN ++ BOLD ++ "── API Key Setup ──────────────────────────────────────────" ++ RESET ++ "\n  To use Claude you need an Anthropic API key.\n  Get one at: " ++ BOLD ++ "https://console.anthropic.com" ++ RESET ++ "\n"

def configure_api_key (w : World) : M Unit := do
  let user := get_real_user w
  let home := w.homeOf user
  let bashrc := pjoin home ".bashrc"
  -- `open(bashrc)` raises `FileNotFoundError` when the file is missing, in
  -- which case the already-configured check is skipped
  let alreadyThere :=
    match w.bashrcContent with
    | some content => strContains content "ANTHROPIC_API_KEY"
    | none => false
  if alreadyThere then
    log_warn "ANTHROPIC_API_KEY already present in .bashrc – skipping."
  else do
    emit (Event.print apiKeyBanner)
    emit (Event.print "  Paste your API key (or press Enter to skip): ")
    let key := pyStrip w.userInput
    if key != "" then do
      emit (Event.append bashrc ("\n# Anthropic API Key\nexport ANTHROPIC_API_KEY=\"" ++ key ++ "\"\n"))
      emit (Event.setEnv "ANTHROPIC_API_KEY" key)
      log_info "API key saved to ~/.bashrc"
    else do
      log_warn "Skipped. Set it later with:"
      emit (Event.print "  echo \x27export ANTHROPIC_API_KEY=\"sk-...\"\x27 >> ~/.bashrc && source ~/.bashrc")

def summaryText (user : String) : String :=
  "\n" ++ GREEN ++ BOLD ++ "\n ╔" ++ repChar 54 '═' ++ "╗\n ║              SETUP COMPLETE!                         ║\n ╚" ++ repChar 54 '═' ++ "╝" ++ RESET ++ "\n\n  " ++ BOLD ++ "Installed:" ++ RESET ++ "\n    • Docker           → docker --version\n    • Docker Compose   → docker compose version\n    • Node.js & npm    → node --version / npm --version\n    • Claude Code CLI  → claude\n    • Anthropic SDK    → python3 -c \"import anthropic\"\n\n  " ++ BOLD ++ "Quick Start:" ++ RESET ++ "\n    1. Open a new terminal (or run: " ++ CYAN ++ "newgrp docker" ++ RESET ++ ")\n    2. Verify Docker:   " ++ CYAN ++ "docker run hello-world" ++ RESET ++ "\n    3. Launch Claude:   " ++ CYAN ++ "claude" ++ RESET ++ "\n\n  " ++ BOLD ++ "Run Claude in Docker (optional):" ++ RESET ++ "\n    docker run -it --rm \\\n      -e ANTHROPIC_API_KEY=$ANTHROPIC_API_KEY \\\n      node:20-slim bash -c \"npm i -g @anthropic-ai/claude-code && claude\"\n\n  " ++ YELLOW ++ "NOTE: Log out & back in (or reboot) for docker group\n  permissions to take effect for user \x27" ++ user ++ "\x27." ++ RESET ++ "\n"

def print_summary (w : World) : M Unit := do
  let user := get_real_user w
  emit (Event.print (summaryText user))

def main (w : World) : M Unit := do
  banner
  check_root w
  update_system w
  install_docker w
  install_docker_compose w
  install_node w
  install_claude_code w
  install_python_sdk w
  configure_api_key w
  print_summary w

/-- the `if __name__ == "__main__"` block of setup_raspberry_pi.py: it calls
`main()` unconditionally, no matter what command-line arguments were given -/
def mainEntry (w : World) (_argv : List String) : M Unit := main w

end SetupPy

/-- The exact trace run.py's `run` leaves behind when a checked command
fails: the optional description line, the command execution, the red
failure line, and the bounded output tail when the captured output is
non-empty. -/
def RunPy.failTrace (w : World) (cmd : String) (desc : Option String) (tr : List Event) : List Event :=
  tr ++
  (match desc with
   | some d => [Event.print (RunPy.C ++ "  -> " ++ RunPy.X ++ d)]
   | none => []) ++
  [Event.exec cmd, Event.print (RunPy.R ++ "[XX]" ++ RunPy.X ++ " " ++ ("Failed: " ++ cmd))] ++
  (if w.cmdOutput cmd != "" then [Event.print (pyTail 600 (w.cmdOutput cmd))] else [])

/-- The exact trace setup_raspberry_pi.py's `run` leaves behind when a
checked command fails. -/
def SetupPy.failTrace (w : World) (cmd description : String) (tr : List Event) : List Event :=
  tr ++
  (if description != ""
   then [Event.print (SetupPy.CYAN ++ "    → " ++ description ++ SetupPy.RESET)]
   else []) ++
  [Event.exec cmd,
   Event.print (SetupPy.RED ++ "[✗] " ++ ("Command failed: " ++ cmd) ++ SetupPy.RESET)] ++
  (if w.cmdOutput cmd != "" then [Event.print (pyTail 500 (w.cmdOutput cmd))] else [])

/-- The events one call of setup_raspberry_pi.py's `run` appends to the
trace (it never terminates the process, whatever the exit status). -/
def SetupPy.runEvs (w : World) (cmd description : String) (check : Bool) : List Event :=
  (if description != ""
   then [Event.print (SetupPy.CYAN ++ "    → " ++ description ++ SetupPy.RESET)]
   else []) ++
  [Event.exec cmd] ++
  (if check && w.cmdExit cmd != 0 then
    [Event.print (SetupPy.RED ++ "[✗] " ++ ("Command failed: " ++ cmd) ++ SetupPy.RESET)] ++
    (if w.cmdOutput cmd != "" then [Event.print (pyTail 500 (w.cmdOutput cmd))] else [])
   else [])

/-- The boolean one call of setup_raspberry_pi.py's `run` returns. -/
def SetupPy.runBool (w : World) (cmd : String) (check : Bool) : Bool :=
  if check && w.cmdExit cmd != 0 then false else (w.cmdExit cmd == 0)

/-- A fully provisioned, healthy host: everything on PATH, every command
succeeds, 10 GB free disk, root, no API key configured yet. -/
def wOk : World where
  cmdExit := fun _ => 0
  cmdOutput := fun _ => ""
  whichPresent := fun _ => true
  nodeVersionStdout := "v20.11.0\n"
  euid := 0
  arch := "aarch64"
  piModel := some "Raspberry Pi 5 Model B"
  ramMB := 8192
  stBavail := 10485760
  stFrsize := 1024
  sudoUser := some "pi"
  homeOf := fun u => "/home/" ++ u
  envFileExists := false
  envFileContent := ""
  bashrcContent := some ""
  userInput := ""

/-- Same host, but `apt-get update -y` (a required step) exits 1 with some
captured output. -/
def wFailUpdate : World :=
  { wOk with
    cmdExit := fun c => if c = "apt-get update -y" then 1 else 0
    cmdOutput := fun c =>
      if c = "apt-get update -y" then "E: Could not get lock /var/lib/apt/lists/lock" else "" }

/-- Same host, but only 1 GB of free disk. -/
def wLowDisk : World := { wOk with stBavail := 1048576 }

/-- Same host, but `node --version` prints something with no parseable
leading integer. -/
def wBadVersion : World := { wOk with nodeVersionStdout := "not-a-version\n" }

/-- Same host, but with Node.js v16 installed (parseable, below the
minimum of 18). -/
def wOldNode : World := { wOk with nodeVersionStdout := "v16.20.2\n" }

/-- Same host, but the user's `.bashrc` already declares the credential
variable and the user types a fresh key at the prompt. -/
def wKeyed : World :=
  { wOk with
    userInput := "sk-ant-test123"
    bashrcContent := some "# keys\nexport ANTHROPIC_API_KEY=\"sk-ant-old\"\n" }

/-- Same host, but a real (non-placeholder) `.env` file already exists. -/
def wEnvKept : World :=
  { wOk with
    envFileExists := true
    envFileContent := "ANTHROPIC_API_KEY=sk-ant-live\n" }

/-- Same host, but the existing `.env` file holds a real key *and* still
mentions the placeholder string in a comment. -/
def wEnvMixed : World :=
  { wOk with
    envFileExists := true
    envFileContent := "ANTHROPIC_API_KEY=sk-ant-live\n# was: your-api-key-here\n" }

theorem bind_app {α β : Type} (x : M α) (f : α → M β) (tr : List Event) :
    (x >>= f) tr = match x tr with
      | Except.error e => Except.error e
      | Except.ok (a, tr2) => f a tr2 := rfl

theorem pure_app {α : Type} (a : α) (tr : List Event) :
    (pure a : M α) tr = Except.ok (a, tr) := rfl

theorem emit_app (e : Event) (tr : List Event) : emit e tr = Except.ok ((), tr ++ [e]) := rfl

theorem sysExit_app {α : Type} (n : Nat) (tr : List Event) :
    (sysExit n : M α) tr = Except.error (n, tr) := rfl

theorem ite_app {α : Type} (c : Prop) [Decidable c] (m1 m2 : M α) (tr : List Event) :
    (if c then m1 else m2) tr = if c then m1 tr else m2 tr := by
  by_cases h : c <;> simp [h]

/-- C1: run.py's step executor does abort the whole run (exit status 1,
failure line and bounded output tail printed, the continuation `k` never
reached); setup_raspberry_pi.py's executor prints the same diagnostics but
returns `False` to its caller, and the run continues into `k`. -/
theorem c1_theorem :
    (∀ (w : World) (cmd : String) (desc : Option String) (k : Bool → M Unit) (tr : List Event),
        w.cmdExit cmd ≠ 0 →
        (RunPy.run w cmd desc true >>= k) tr =
          Except.error (1, RunPy.failTrace w cmd desc tr)) ∧
    (∀ (w : World) (cmd description : String) (k : Bool → M Bool) (tr : List Event),
        w.cmdExit cmd ≠ 0 →
        (SetupPy.run w cmd description true >>= k) tr =
          k false (SetupPy.failTrace w cmd description tr)) := by
  constructor
  · intro w cmd desc k tr h
    have hb : (w.cmdExit cmd != 0) = true := by simpa [bne_iff_ne] using h
    by_cases ho : w.cmdOutput cmd = "" <;> cases desc <;>
      simp [RunPy.run, RunPy.failTrace, RunPy.info, RunPy.err, bind_app, pure_app, emit_app,
        sysExit_app, ite_app, hb, ho, List.append_assoc]
  · intro w cmd description k tr h
    have hb : (w.cmdExit cmd != 0) = true := by simpa [bne_iff_ne] using h
    by_cases ho : w.cmdOutput cmd = "" <;> by_cases hd : description = "" <;>
      simp [SetupPy.run, SetupPy.failTrace, SetupPy.log_info, SetupPy.log_error, bind_app,
        pure_app, emit_app, sysExit_app, ite_app, hb, hd, ho, List.append_assoc]

/-- C1 as stated is false for setup_raspberry_pi.py: with `apt-get update -y`
(a required step) failing, `update_system` completes with process exit
status 0 and the later step `apt-get upgrade -y` still executes. -/
theorem c1_counterexample :
    runExit (SetupPy.update_system wFailUpdate) = 0 ∧
    Event.exec "apt-get upgrade -y" ∈ runTrace (SetupPy.update_system wFailUpdate) := by
  constructor
  · decide
  · decide

/-- C1 witness: the amended theorem applied at the failing world. -/
theorem c1_witness :
    wFailUpdate.cmdExit "apt-get update -y" ≠ 0 ∧
    ((RunPy.run wFailUpdate "apt-get update -y" (some "apt update") true >>= fun _ => pure ()) [] =
      Except.error (1, RunPy.failTrace wFailUpdate "apt-get update -y" (some "apt update") [])) ∧
    ((SetupPy.run wFailUpdate "apt-get update -y" "Running apt-get update …" true >>=
        fun _ => pure true) [] =
      (fun _ => (pure true : M Bool)) false
        (SetupPy.failTrace wFailUpdate "apt-get update -y" "Running apt-get update …" [])) :=
  ⟨by decide,
   c1_theorem.1 wFailUpdate "apt-get update -y" (some "apt update") (fun _ => pure ()) []
     (by decide),
   c1_theorem.2 wFailUpdate "apt-get update -y" "Running apt-get update …" (fun _ => pure true) []
     (by decide)⟩

/-- C2: run.py's dispatch behaves as claimed: when `sys.argv[1]`
(lowercased, empty when absent) is not `"setup"`, the program prints the
usage text as its only effect and exits 0; when it is `"setup"`, the full
workflow runs.  setup_raspberry_pi.py, by contrast, ignores argv entirely
and always runs the workflow. -/
theorem c2_theorem :
    (∀ (w : World) (argv : List String),
        RunPy.argCmd argv ≠ "setup" →
        runExit (RunPy.mainEntry w argv) = 0 ∧
        runTrace (RunPy.mainEntry w argv) = [Event.print RunPy.usageText]) ∧
    (∀ (w : World) (argv : List String),
        RunPy.argCmd argv = "setup" → RunPy.mainEntry w argv = RunPy.setup w) ∧
    (∀ (w : World) (argv : List String), SetupPy.mainEntry w argv = SetupPy.main w) := by
  refine ⟨?_, ?_, ?_⟩
  · intro w argv h
    constructor <;>
      simp [RunPy.mainEntry, RunPy.usage, runExit, runTrace, emit_app, h]
  · intro w argv h
    simp [RunPy.mainEntry, h]
  · intro w argv
    rfl

/-- C2 as stated is false for setup_raspberry_pi.py: invoked without any
action keyword it still runs the full workflow — here the external command
`apt-get update -y` executes instead of usage text being the only output. -/
theorem c2_counterexample :
    Event.exec "apt-get update -y" ∈ runTrace (SetupPy.mainEntry wOk ["./setup_raspberry_pi.py"]) := by
  decide

/-- C2 witness: the run.py dispatch theorem applied to an invocation with
an unrecognized action word. -/
theorem c2_witness :
    RunPy.argCmd ["run.py", "help"] ≠ "setup" ∧
    (runExit (RunPy.mainEntry wOk ["run.py", "help"]) = 0 ∧
     runTrace (RunPy.mainEntry wOk ["run.py", "help"]) = [Event.print RunPy.usageText]) :=
  ⟨by decide, c2_theorem.1 wOk ["run.py", "help"] (by decide)⟩

theorem preflight_disk_fail (w : World) (tr : List Event) (h : RunPy.free_gb w < 4) :
    ∃ p, RunPy.preflight w tr = Except.error (1, tr ++ p) ∧ p.all Event.isPrint = true := by
  have h2 : w.stBavail * w.stFrsize / 1073741824 < 4 := by
    simpa [RunPy.free_gb] using h
  rcases hm : w.piModel with _ | raw <;>
    by_cases he : w.euid = 0 <;>
    by_cases hr : w.ramMB < 2048 <;>
    by_cases ha1 : (w.arch == "aarch64") = true <;>
    by_cases ha2 : (w.arch == "armv7l") = true <;>
    · simp only [RunPy.preflight, RunPy.ok, RunPy.warn, RunPy.err, RunPy.free_gb, bind_app,
        pure_app, emit_app, sysExit_app, ite_app, hm, he, hr, ha1, ha2, h]
      simp [he, hr, ha1, ha2, h2, List.append_assoc, Event.isPrint]

/-- C3: in run.py, whenever the computed free disk space is below 4 GB,
the whole `setup` run terminates with exit status 1 and its trace is
console output only — no command is executed, no file is written, so no
installer (mutating) step runs.  (setup_raspberry_pi.py has no disk check
at all; see the counterexample.) -/
theorem c3_theorem (w : World) (h : RunPy.free_gb w < 4) :
    runExit (RunPy.setup w) = 1 ∧ (runTrace (RunPy.setup w)).all Event.isPrint = true := by
  obtain ⟨p, hp, hall⟩ := preflight_disk_fail w [Event.print RunPy.bannerText] h
  have hs : RunPy.setup w [] = Except.error (1, [Event.print RunPy.bannerText] ++ p) := by
    simp [RunPy.setup, bind_app, emit_app, hp]
  refine ⟨?_, ?_⟩
  · simp [runExit, hs]
  · simp [runTrace, hs, hall, Event.isPrint]

/-- C3 as stated is false for setup_raspberry_pi.py: with only 1 GB free
(below the 4 GB threshold) its `main` performs no disk check, executes the
installer step `apt-get update -y` anyway, and exits 0. -/
theorem c3_counterexample :
    RunPy.free_gb wLowDisk < 4 ∧
    runExit (SetupPy.main wLowDisk) = 0 ∧
    Event.exec "apt-get update -y" ∈ runTrace (SetupPy.main wLowDisk) := by
  refine ⟨by decide, by decide, by decide⟩

/-- C3 witness: the run.py disk-abort theorem applied at the 1 GB world. -/
theorem c3_witness :
    RunPy.free_gb wLowDisk < 4 ∧
    (runExit (RunPy.setup wLowDisk) = 1 ∧
     (runTrace (RunPy.setup wLowDisk)).all Event.isPrint = true) :=
  ⟨by decide, c3_theorem wLowDisk (by decide)⟩

theorem string_ne_append (s p : String)
    (h : (s.data.take p.data.length == p.data) = false) : ∀ u : String, s ≠ p ++ u := by
  intro u he
  have hd : s.data = p.data ++ u.data := by
    rw [he]; cases p; cases u; rfl
  rw [hd, List.take_left] at h
  simp at h

/-- C4: the Docker and Node.js installers do detect-before-install (when
the target is present and adequate they emit a warning and never run the
download/install commands), but the Claude-CLI installers do not skip:
run.py's unconditionally runs `npm install`, and setup_raspberry_pi.py's
runs `npm update` instead of skipping when `claude` is already on PATH. -/
theorem c4_theorem :
    (∀ w : World, RunPy.has w "docker" = true →
        Event.print (RunPy.Y ++ "[!!]" ++ RunPy.X ++ " " ++ "Docker already installed") ∈
          runTrace (RunPy.install_docker w) ∧
        Event.exec "sh /tmp/get-docker.sh" ∉ runTrace (RunPy.install_docker w)) ∧
    (∀ w : World, RunPy.has w "node" = true → RunPy.node_major w ≥ 18 →
        (runTrace (RunPy.install_node w)).all Event.isPrint = true) ∧
    (∀ w : World,
        Event.exec "npm install -g @anthropic-ai/claude-code --loglevel=warn" ∈
          runTrace (RunPy.install_claude_cli w)) ∧
    (∀ w : World, SetupPy.is_installed w "claude" = true →
        Event.exec "npm install -g @anthropic-ai/claude-code" ∉
          runTrace (SetupPy.install_claude_code w) ∧
        Event.exec "npm update -g @anthropic-ai/claude-code" ∈
          runTrace (SetupPy.install_claude_code w)) := by
  refine ⟨?_, ?_, ?_, ?_⟩
  · intro w hdok
    have hdok2 : w.whichPresent "docker" = true := hdok
    constructor <;>
      by_cases hs : w.cmdExit "systemctl enable docker && systemctl start docker" = 0 <;>
      by_cases hu : w.cmdExit ("usermod -aG docker " ++ RunPy.real_user w) = 0 <;>
      by_cases ho1 : w.cmdOutput "systemctl enable docker && systemctl start docker" = "" <;>
      by_cases ho2 : w.cmdOutput ("usermod -aG docker " ++ RunPy.real_user w) = "" <;>
      simp +decide [RunPy.install_docker, RunPy.run, RunPy.ok, RunPy.warn, RunPy.err,
        RunPy.info, RunPy.has, runTrace, bind_app, pure_app, emit_app, sysExit_app, ite_app,
        hdok2, hs, hu, ho1, ho2, bne_iff_ne, List.append_assoc] <;>
      exact string_ne_append "sh /tmp/get-docker.sh" "usermod -aG docker " (by decide)
        (RunPy.real_user w)
  · intro w hnode hmajor
    have hnode2 : w.whichPresent "node" = true := hnode
    simp [RunPy.install_node, RunPy.ok, RunPy.warn, runTrace, bind_app, pure_app, emit_app,
      ite_app, hnode2, hmajor, RunPy.has, Event.isPrint]
  · intro w
    by_cases hx : w.cmdExit "npm install -g @anthropic-ai/claude-code --loglevel=warn" = 0 <;>
      by_cases ho : w.cmdOutput "npm install -g @anthropic-ai/claude-code --loglevel=warn" = "" <;>
      simp +decide [RunPy.install_claude_cli, RunPy.run, RunPy.ok, RunPy.err, RunPy.info,
        runTrace, bind_app, pure_app, emit_app, sysExit_app, ite_app, hx, ho, bne_iff_ne,
        List.append_assoc]
  · intro w hclaude
    have hclaude2 : w.whichPresent "claude" = true := hclaude
    constructor <;>
      by_cases hx : w.cmdExit "npm update -g @anthropic-ai/claude-code" = 0 <;>
      by_cases ho : w.cmdOutput "npm update -g @anthropic-ai/claude-code" = "" <;>
      simp +decide [SetupPy.install_claude_code, SetupPy.run, SetupPy.log_step,
        SetupPy.log_warn, SetupPy.log_error, SetupPy.log_info, SetupPy.is_installed,
        runTrace, bind_app, pure_app, emit_app, sysExit_app, ite_app, hclaude2, hx, ho,
        bne_iff_ne, List.append_assoc]

/-- C4 as stated is false: with `claude` already on PATH, run.py's
`install_claude_cli` performs no presence check and still executes the
global `npm install` command. -/
theorem c4_counterexample :
    RunPy.has wOk "claude" = true ∧
    Event.exec "npm install -g @anthropic-ai/claude-code --loglevel=warn" ∈
      runTrace (RunPy.install_claude_cli wOk) := by
  refine ⟨rfl, by decide⟩

/-- C4 witness: all four parts of the amended theorem at the fully
provisioned world. -/
theorem c4_witness :
    (RunPy.has wOk "docker" = true ∧
      (Event.print (RunPy.Y ++ "[!!]" ++ RunPy.X ++ " " ++ "Docker already installed") ∈
          runTrace (RunPy.install_docker wOk) ∧
        Event.exec "sh /tmp/get-docker.sh" ∉ runTrace (RunPy.install_docker wOk))) ∧
    (RunPy.has wOk "node" = true ∧ RunPy.node_major wOk ≥ 18 ∧
      (runTrace (RunPy.install_node wOk)).all Event.isPrint = true) ∧
    (Event.exec "npm install -g @anthropic-ai/claude-code --loglevel=warn" ∈
      runTrace (RunPy.install_claude_cli wOk)) ∧
    (SetupPy.is_installed wOk "claude" = true ∧
      (Event.exec "npm install -g @anthropic-ai/claude-code" ∉
          runTrace (SetupPy.install_claude_code wOk) ∧
        Event.exec "npm update -g @anthropic-ai/claude-code" ∈
          runTrace (SetupPy.install_claude_code wOk))) :=
  ⟨⟨rfl, c4_theorem.1 wOk rfl⟩,
   ⟨rfl, by decide, c4_theorem.2.1 wOk rfl (by decide)⟩,
   c4_theorem.2.2.1 wOk,
   ⟨rfl, c4_theorem.2.2.2 wOk rfl⟩⟩

theorem str_data_append (s t : String) : (s ++ t).data = s.data ++ t.data := by
  cases s; cases t; rfl

theorem string_append_left_cancel {p a b : String} (he : p ++ a = p ++ b) : a = b := by
  have hd := congrArg String.data he
  rw [str_data_append, str_data_append] at hd
  have h2 := List.append_cancel_left hd
  cases a; cases b; exact congrArg String.mk h2

theorem pjoin_ne {a x y : String} (h : (x == y) = false) : pjoin a x ≠ pjoin a y := by
  intro he
  have h2 : x = y := string_append_left_cancel he
  rw [h2] at h
  simp at h

/-- When the `.env` file is absent or its content still mentions the
placeholder, `scaffold` writes the default placeholder `.env` file. -/
theorem scaffold_env_write (w : World)
    (h : (!w.envFileExists || strContains w.envFileContent RunPy.placeholder) = true) :
    Event.write (RunPy.envPath w) RunPy.envDefault ∈ runTrace (RunPy.scaffold w) := by
  by_cases hch : w.cmdExit ("chown -R " ++ RunPy.real_user w ++ ":" ++ RunPy.real_user w ++ " "
      ++ pjoin (RunPy.real_home w) "claude-workspace") = 0 <;>
    by_cases ho : w.cmdOutput ("chown -R " ++ RunPy.real_user w ++ ":" ++ RunPy.real_user w
      ++ " " ++ pjoin (RunPy.real_home w) "claude-workspace") = "" <;>
    simp [RunPy.scaffold, RunPy.run, RunPy.ok, RunPy.err, RunPy.envPath, runTrace, bind_app,
      pure_app, emit_app, sysExit_app, ite_app, h, hch, ho, bne_iff_ne, List.append_assoc]

/-- When the `.env` file exists and does not mention the placeholder,
`scaffold` writes nothing at the `.env` path at all. -/
theorem scaffold_env_skip (w : World)
    (h : (!w.envFileExists || strContains w.envFileContent RunPy.placeholder) = false) :
    ∀ c, Event.write (RunPy.envPath w) c ∉ runTrace (RunPy.scaffold w) := by
  intro c
  have hne1 : pjoin (pjoin (RunPy.real_home w) "claude-workspace") ".env" ≠
      pjoin (pjoin (RunPy.real_home w) "claude-workspace") "docker-compose.yml" :=
    pjoin_ne (by decide)
  have hne2 : pjoin (pjoin (RunPy.real_home w) "claude-workspace") ".env" ≠
      pjoin (pjoin (RunPy.real_home w) "claude-workspace") "start-claude.sh" :=
    pjoin_ne (by decide)
  by_cases hch : w.cmdExit ("chown -R " ++ RunPy.real_user w ++ ":" ++ RunPy.real_user w ++ " "
      ++ pjoin (RunPy.real_home w) "claude-workspace") = 0 <;>
    by_cases ho : w.cmdOutput ("chown -R " ++ RunPy.real_user w ++ ":" ++ RunPy.real_user w
      ++ " " ++ pjoin (RunPy.real_home w) "claude-workspace") = "" <;>
    simp [RunPy.scaffold, RunPy.run, RunPy.ok, RunPy.err, RunPy.envPath, runTrace, bind_app,
      pure_app, emit_app, sysExit_app, ite_app, h, hch, ho, bne_iff_ne, List.append_assoc,
      hne1, hne2]

/-- C5: `scaffold` writes the placeholder `.env` exactly when the file is
absent or its content still contains the placeholder substring; when a
non-placeholder `.env` exists, no write at all touches that path, so the
existing content is preserved byte for byte across re-runs. -/
theorem c5_theorem (w : World) :
    ((w.envFileExists = false ∨ strContains w.envFileContent RunPy.placeholder = true) →
      Event.write (RunPy.envPath w) RunPy.envDefault ∈ runTrace (RunPy.scaffold w)) ∧
    (w.envFileExists = true → strContains w.envFileContent RunPy.placeholder = false →
      ∀ c, Event.write (RunPy.envPath w) c ∉ runTrace (RunPy.scaffold w)) := by
  constructor
  · intro h
    apply scaffold_env_write
    rcases h with h | h <;> simp [h]
  · intro h1 h2
    apply scaffold_env_skip
    simp [h1, h2]

/-- C5 witness: the theorem applied at a host with no `.env` (the write
happens) and at a host with a real, non-placeholder `.env` (no write at
its path). -/
theorem c5_witness :
    ((wOk.envFileExists = false ∨ strContains wOk.envFileContent RunPy.placeholder = true) ∧
      Event.write (RunPy.envPath wOk) RunPy.envDefault ∈ runTrace (RunPy.scaffold wOk)) ∧
    (wEnvKept.envFileExists = true ∧
      strContains wEnvKept.envFileContent RunPy.placeholder = false ∧
      Event.write (RunPy.envPath wEnvKept) RunPy.envDefault ∉
        runTrace (RunPy.scaffold wEnvKept)) :=
  ⟨⟨Or.inl rfl, (c5_theorem wOk).1 (Or.inl rfl)⟩,
   ⟨rfl, by decide, (c5_theorem wEnvKept).2 rfl (by decide) RunPy.envDefault⟩⟩

/-- C10: the preservation decision is by substring only — any existing
`.env` whose content contains the placeholder string anywhere is
overwritten whole with the default placeholder content. -/
theorem c10_theorem (w : World) (hex : w.envFileExists = true)
    (hc : strContains w.envFileContent RunPy.placeholder = true) :
    Event.write (RunPy.envPath w) RunPy.envDefault ∈ runTrace (RunPy.scaffold w) :=
  scaffold_env_write w (by simp [hex, hc])

/-- C10 witness: an `.env` holding a real key alongside a stray
placeholder mention is still overwritten. -/
theorem c10_witness :
    wEnvMixed.envFileExists = true ∧
    strContains wEnvMixed.envFileContent RunPy.placeholder = true ∧
    Event.write (RunPy.envPath wEnvMixed) RunPy.envDefault ∈
      runTrace (RunPy.scaffold wEnvMixed) :=
  ⟨rfl, by decide, c10_theorem wEnvMixed rfl (by decide)⟩

/-- C6: when the invoking user's shell-profile content already contains the
substring `ANTHROPIC_API_KEY`, neither secret collector ever appends to any
file, whatever the user typed: run.py's `ask_key` skips the `.bashrc`
append (it may still overwrite `.env`, which is a write, not an append),
and setup_raspberry_pi.py's `configure_api_key` returns before even
prompting. -/
theorem c6_theorem (w : World) (base : String)
    (h : strContains ((w.bashrcContent).getD "") "ANTHROPIC_API_KEY" = true) :
    (∀ p c, Event.append p c ∉ runTrace (RunPy.ask_key w base)) ∧
    (∀ p c, Event.append p c ∉ runTrace (SetupPy.configure_api_key w)) := by
  constructor
  · intro p c
    by_cases hk : pyStrip w.userInput = "" <;>
      simp [RunPy.ask_key, RunPy.ok, RunPy.warn, runTrace, bind_app, pure_app, emit_app,
        ite_app, h, hk]
  · intro p c
    rcases hb : w.bashrcContent with _ | content
    · simp only [hb, Option.getD_none] at h
      exact absurd h (by decide)
    · simp only [hb, Option.getD_some] at h
      simp [SetupPy.configure_api_key, SetupPy.log_warn, runTrace, bind_app, pure_app,
        emit_app, ite_app, hb, h]

/-- C6 witness: the theorem applied at a host whose `.bashrc` already
declares the variable while the user types a fresh key. -/
theorem c6_witness :
    strContains ((wKeyed.bashrcContent).getD "") "ANTHROPIC_API_KEY" = true ∧
    Event.append (pjoin (RunPy.real_home wKeyed) ".bashrc")
        ("\n# Anthropic API Key\nexport ANTHROPIC_API_KEY=\"sk-ant-test123\"\n") ∉
      runTrace (RunPy.ask_key wKeyed "/home/pi/claude-workspace") ∧
    Event.append (pjoin (wKeyed.homeOf "pi") ".bashrc")
        ("\n# Anthropic API Key\nexport ANTHROPIC_API_KEY=\"sk-ant-test123\"\n") ∉
      runTrace (SetupPy.configure_api_key wKeyed) :=
  ⟨by decide,
   (c6_theorem wKeyed "/home/pi/claude-workspace" (by decide)).1 _ _,
   (c6_theorem wKeyed "/home/pi/claude-workspace" (by decide)).2 _ _⟩

/-- C7: with empty input at the secret prompt, both collectors only print
(no write, no append, no environment mutation) — in particular the `.env`
file keeps its placeholder content — and run.py surfaces the skip warning. -/
theorem c7_theorem (w : World) (base : String) (h : pyStrip w.userInput = "") :
    ((runTrace (RunPy.ask_key w base)).all Event.isPrint = true ∧
      Event.print (RunPy.Y ++ "[!!]" ++ RunPy.X ++ " "
          ++ "Skipped — edit .env later before running Claude") ∈
        runTrace (RunPy.ask_key w base)) ∧
    (runTrace (SetupPy.configure_api_key w)).all Event.isPrint = true := by
  refine ⟨⟨?_, ?_⟩, ?_⟩
  · simp [RunPy.ask_key, RunPy.warn, runTrace, bind_app, pure_app, emit_app, ite_app, h,
      Event.isPrint]
  · simp [RunPy.ask_key, RunPy.warn, runTrace, bind_app, pure_app, emit_app, ite_app, h]
  · rcases hb : w.bashrcContent with _ | content
    · simp [SetupPy.configure_api_key, SetupPy.log_warn, runTrace, bind_app, pure_app,
        emit_app, ite_app, hb, h, Event.isPrint]
    · by_cases hc : strContains content "ANTHROPIC_API_KEY" = true <;>
        simp [SetupPy.configure_api_key, SetupPy.log_warn, runTrace, bind_app, pure_app,
          emit_app, ite_app, hb, hc, h, Event.isPrint]

/-- C7 witness: the theorem applied at the healthy host where the user
presses Enter at the prompt. -/
theorem c7_witness :
    pyStrip wOk.userInput = "" ∧
    (((runTrace (RunPy.ask_key wOk "/home/pi/claude-workspace")).all Event.isPrint = true ∧
       Event.print (RunPy.Y ++ "[!!]" ++ RunPy.X ++ " "
           ++ "Skipped — edit .env later before running Claude") ∈
         runTrace (RunPy.ask_key wOk "/home/pi/claude-workspace")) ∧
     (runTrace (SetupPy.configure_api_key wOk)).all Event.isPrint = true) :=
  ⟨rfl, c7_theorem wOk "/home/pi/claude-workspace" rfl⟩

theorem setup_run_app (w : World) (cmd description : String) (check : Bool) (tr : List Event) :
    SetupPy.run w cmd description check tr =
      Except.ok (SetupPy.runBool w cmd check, tr ++ SetupPy.runEvs w cmd description check) := by
  by_cases h1 : (check && w.cmdExit cmd != 0) = true <;>
    by_cases h2 : w.cmdOutput cmd = "" <;>
    by_cases h3 : description = "" <;>
    simp [SetupPy.run, SetupPy.runEvs, SetupPy.runBool, SetupPy.log_info, SetupPy.log_error,
      bind_app, pure_app, emit_app, ite_app, h1, h2, h3, List.append_assoc]

theorem exec_sublist_runEvs (w : World) (cmd description : String) (check : Bool) :
    List.Sublist [Event.exec cmd] (SetupPy.runEvs w cmd description check) := by
  rw [List.singleton_sublist]
  unfold SetupPy.runEvs
  simp

theorem mem_exec_runEvs {e : String} {w : World} {cmd description : String} {check : Bool}
    (h : Event.exec e ∈ SetupPy.runEvs w cmd description check) : e = cmd := by
  unfold SetupPy.runEvs at h
  split_ifs at h <;> simp at h <;> exact h

/-- C8: with Node present and a parseable major version below 18, both
installers first run the removal command and only then the canonical
install path (NodeSource repo setup followed by the package install), in
that order, within one run.  The exit-status hypotheses only keep run.py's
aborting executor from cutting the sequence short. -/
theorem c8_theorem (w : World) (m : Int)
    (hnode : w.whichPresent "node" = true)
    (hp : parseMajor? w.nodeVersionStdout = some m)
    (hm : m < 18)
    (hrm : w.cmdExit "apt-get remove -y -qq nodejs" = 0)
    (hrepo : w.cmdExit "curl -fsSL https://deb.nodesource.com/setup_20.x | bash -" = 0) :
    List.Sublist
      [Event.exec "apt-get remove -y -qq nodejs",
       Event.exec "curl -fsSL https://deb.nodesource.com/setup_20.x | bash -",
       Event.exec "apt-get install -y -qq nodejs"]
      (runTrace (RunPy.install_node w)) ∧
    List.Sublist
      [Event.exec "apt-get remove -y nodejs",
       Event.exec "curl -fsSL https://deb.nodesource.com/setup_20.x | bash -",
       Event.exec "apt-get install -y nodejs"]
      (runTrace (SetupPy.install_node w)) := by
  have hnm : RunPy.node_major w = m := by simp [RunPy.node_major, hp]
  have hlt : ¬(RunPy.node_major w ≥ 18) := by rw [hnm]; omega
  have hge : ¬(m ≥ 18) := by omega
  constructor
  · by_cases hi : w.cmdExit "apt-get install -y -qq nodejs" = 0 <;>
      by_cases ho : w.cmdOutput "apt-get install -y -qq nodejs" = "" <;>
      · simp [RunPy.install_node, RunPy.run, RunPy.ok, RunPy.warn, RunPy.err, RunPy.info,
          RunPy.has, runTrace, bind_app, pure_app, emit_app, sysExit_app, ite_app, hnode,
          hlt, hrm, hrepo, hi, ho, bne_iff_ne, List.append_assoc]
        exact List.Sublist.cons _ (List.Sublist.cons _ (List.Sublist.cons₂ _
          (List.Sublist.cons _ (List.Sublist.cons₂ _ (List.Sublist.cons _
            (List.Sublist.cons₂ _ (List.nil_sublist _)))))))
  · simp only [SetupPy.install_node, SetupPy.log_step, SetupPy.log_warn, SetupPy.is_installed,
      bind_app, pure_app, emit_app, ite_app, setup_run_app, runTrace, hnode, hp]
    simp only [hge, if_true, if_false, ite_false, ite_true, eq_self_iff_true, if_neg,
      List.append_assoc, List.cons_append, List.nil_append, ge_iff_le, decide_eq_true_eq]
    refine List.Sublist.cons _ (List.Sublist.cons _ ?_)
    show List.Sublist ([Event.exec "apt-get remove -y nodejs"] ++
      ([Event.exec "curl -fsSL https://deb.nodesource.com/setup_20.x | bash -"] ++
       ([Event.exec "apt-get install -y nodejs"] ++ []))) _
    exact List.Sublist.append (exec_sublist_runEvs w _ _ true)
      (List.Sublist.append (exec_sublist_runEvs w _ _ true)
        (List.Sublist.append (exec_sublist_runEvs w _ _ true) (List.nil_sublist _)))

/-- C8 witness: the theorem applied at the host running Node v16. -/
theorem c8_witness :
    (wOldNode.whichPresent "node" = true ∧
      parseMajor? wOldNode.nodeVersionStdout = some 16 ∧ (16 : Int) < 18 ∧
      wOldNode.cmdExit "apt-get remove -y -qq nodejs" = 0 ∧
      wOldNode.cmdExit "curl -fsSL https://deb.nodesource.com/setup_20.x | bash -" = 0) ∧
    (List.Sublist
      [Event.exec "apt-get remove -y -qq nodejs",
       Event.exec "curl -fsSL https://deb.nodesource.com/setup_20.x | bash -",
       Event.exec "apt-get install -y -qq nodejs"]
      (runTrace (RunPy.install_node wOldNode)) ∧
    List.Sublist
      [Event.exec "apt-get remove -y nodejs",
       Event.exec "curl -fsSL https://deb.nodesource.com/setup_20.x | bash -",
       Event.exec "apt-get install -y nodejs"]
      (runTrace (SetupPy.install_node wOldNode))) :=
  ⟨⟨rfl, by decide, by decide, rfl, rfl⟩,
   c8_theorem wOldNode 16 rfl (by decide) (by decide) rfl rfl⟩

/-- C9: a version string with no parseable leading integer is not treated
as "do not upgrade": run.py coerces the parse failure to major 0, removes
the existing installation and reinstalls; setup_raspberry_pi.py skips only
the removal and still runs the repo setup and the package install. -/
theorem c9_theorem (w : World)
    (hnode : w.whichPresent "node" = true)
    (hp : parseMajor? w.nodeVersionStdout = none)
    (hrm : w.cmdExit "apt-get remove -y -qq nodejs" = 0)
    (hrepo : w.cmdExit "curl -fsSL https://deb.nodesource.com/setup_20.x | bash -" = 0) :
    List.Sublist
      [Event.exec "apt-get remove -y -qq nodejs",
       Event.exec "curl -fsSL https://deb.nodesource.com/setup_20.x | bash -",
       Event.exec "apt-get install -y -qq nodejs"]
      (runTrace (RunPy.install_node w)) ∧
    Event.exec "apt-get remove -y nodejs" ∉ runTrace (SetupPy.install_node w) ∧
    List.Sublist
      [Event.exec "curl -fsSL https://deb.nodesource.com/setup_20.x | bash -",
       Event.exec "apt-get install -y nodejs"]
      (runTrace (SetupPy.install_node w)) := by
  have hnm : RunPy.node_major w = 0 := by simp [RunPy.node_major, hp]
  have hlt : ¬(RunPy.node_major w ≥ 18) := by rw [hnm]; omega
  refine ⟨?_, ?_, ?_⟩
  · by_cases hi : w.cmdExit "apt-get install -y -qq nodejs" = 0 <;>
      by_cases ho : w.cmdOutput "apt-get install -y -qq nodejs" = "" <;>
      · simp [RunPy.install_node, RunPy.run, RunPy.ok, RunPy.warn, RunPy.err, RunPy.info,
          RunPy.has, runTrace, bind_app, pure_app, emit_app, sysExit_app, ite_app, hnode,
          hlt, hrm, hrepo, hi, ho, bne_iff_ne, List.append_assoc]
        exact List.Sublist.cons _ (List.Sublist.cons _ (List.Sublist.cons₂ _
          (List.Sublist.cons _ (List.Sublist.cons₂ _ (List.Sublist.cons _
            (List.Sublist.cons₂ _ (List.nil_sublist _)))))))
  · intro hmem
    simp only [SetupPy.install_node, SetupPy.log_step, SetupPy.is_installed, bind_app,
      pure_app, emit_app, ite_app, setup_run_app, runTrace, hnode, hp] at hmem
    simp only [if_true, ite_true, List.append_assoc, List.cons_append, List.nil_append,
      List.mem_cons, List.mem_append] at hmem
    rcases hmem with h | h | h | h | h
    · exact Event.noConfusion h
    · exact absurd (mem_exec_runEvs h) (by decide)
    · exact absurd (mem_exec_runEvs h) (by decide)
    · exact absurd (mem_exec_runEvs h) (by decide)
    · exact absurd (mem_exec_runEvs h) (by decide)
  · simp only [SetupPy.install_node, SetupPy.log_step, SetupPy.is_installed, bind_app,
      pure_app, emit_app, ite_app, setup_run_app, runTrace, hnode, hp]
    simp only [if_true, ite_true, List.append_assoc, List.cons_append, List.nil_append]
    refine List.Sublist.cons _ ?_
    show List.Sublist
      ([Event.exec "curl -fsSL https://deb.nodesource.com/setup_20.x | bash -"] ++
       ([Event.exec "apt-get install -y nodejs"] ++ [])) _
    exact List.Sublist.append (exec_sublist_runEvs w _ _ true)
      (List.Sublist.append (exec_sublist_runEvs w _ _ true) (List.nil_sublist _))

/-- C9 as stated is false: with `node` on PATH and an unparseable version
string, run.py's installer does remove the existing installation (and then
reinstalls) instead of doing nothing. -/
theorem c9_counterexample :
    parseMajor? wBadVersion.nodeVersionStdout = none ∧
    Event.exec "apt-get remove -y -qq nodejs" ∈ runTrace (RunPy.install_node wBadVersion) ∧
    Event.exec "apt-get install -y -qq nodejs" ∈ runTrace (RunPy.install_node wBadVersion) := by
  refine ⟨by decide, by decide, by decide⟩

/-- C9 witness: the amended theorem applied at the unparseable-version
host. -/
theorem c9_witness :
    (wBadVersion.whichPresent "node" = true ∧
      parseMajor? wBadVersion.nodeVersionStdout = none ∧
      wBadVersion.cmdExit "apt-get remove -y -qq nodejs" = 0 ∧
      wBadVersion.cmdExit "curl -fsSL https://deb.nodesource.com/setup_20.x | bash -" = 0) ∧
    (List.Sublist
      [Event.exec "apt-get remove -y -qq nodejs",
       Event.exec "curl -fsSL https://deb.nodesource.com/setup_20.x | bash -",
       Event.exec "apt-get install -y -qq nodejs"]
      (runTrace (RunPy.install_node wBadVersion)) ∧
    Event.exec "apt-get remove -y nodejs" ∉ runTrace (SetupPy.install_node wBadVersion) ∧
    List.Sublist
      [Event.exec "curl -fsSL https://deb.nodesource.com/setup_20.x | bash -",
       Event.exec "apt-get install -y nodejs"]
      (runTrace (SetupPy.install_node wBadVersion))) :=
  ⟨⟨rfl, by decide, rfl, rfl⟩,
   c9_theorem wBadVersion rfl (by decide) rfl rfl⟩
